import Mathlib

/-
Verification development for the mssp-ot-rss repository: a shallow
embedding in Lean 4 of the two Python modules Scraper/scraper.py
(link discovery, crawl coordination, audio extraction) and
Scraper/csv_to_rss.py (date normalization and feed assembly), together
with theorems settling the behavioural claims about them.

External library collaborators (the HTML parser, the HTTP transport,
urllib) are modelled as explicit data or function parameters, following
the scope of the design document: the parser is rendered as the tree
data it hands to the traversal code, the transport as a fetch oracle,
and datetime.now as an explicitly passed clock value.
-/

/-! ### Date model (csv_to_rss.py) -/

/-- Calendar date with time of day: the shallow model of a Python
datetime value, restricted to the fields this program reads. -/
structure DateTime where
  year : Nat
  month : Nat
  day : Nat
  hour : Nat
  minute : Nat
  second : Nat
  deriving DecidableEq, Repr

/-- Abbreviated month names, as matched by the strptime directive for
abbreviated months and printed by strftime. -/
def monthAbbrNames : List String :=
  ["Jan", "Feb", "Mar", "Apr", "May", "Jun", "Jul", "Aug", "Sep", "Oct", "Nov", "Dec"]

/-- Full month names, as matched by the strptime directive for full
month names. -/
def monthFullNames : List String :=
  ["January", "February", "March", "April", "May", "June",
   "July", "August", "September", "October", "November", "December"]

/-- Weekday abbreviations indexed with Sunday at zero. -/
def weekdayAbbrNames : List String :=
  ["Sun", "Mon", "Tue", "Wed", "Thu", "Fri", "Sat"]

/-- Match one month name from the list at the start of the input,
case-insensitively, the way the strptime regular expression does;
returns the 1-based month number and the remaining input. -/
def matchMonth (names : List String) (input : List Char) : Option (Nat × List Char) :=
  names.enum.findSome? fun p =>
    let nc := p.2.toList.map Char.toLower
    if (input.take nc.length).map Char.toLower = nc then
      some (p.1 + 1, input.drop nc.length)
    else none

/-- Numeric value of a decimal digit character. -/
def digitVal (c : Char) : Option Nat :=
  if c.isDigit then some (c.toNat - 48) else none

/-- Match the strptime day-of-month pattern: two digits in 01-31,
a single digit 1-9, or a space followed by a digit 1-9. -/
def matchDay (input : List Char) : Option (Nat × List Char) :=
  match input with
  | [] => none
  | c1 :: rest1 =>
    match digitVal c1 with
    | some d1 =>
      match rest1 with
      | [] => if 1 ≤ d1 then some (d1, []) else none
      | c2 :: rest2 =>
        match digitVal c2 with
        | some d2 =>
          if (d1 = 3 ∧ d2 ≤ 1) ∨ d1 = 1 ∨ d1 = 2 ∨ (d1 = 0 ∧ 1 ≤ d2) then
            some (10 * d1 + d2, rest2)
          else if 1 ≤ d1 then some (d1, c2 :: rest2)
          else none
        | none => if 1 ≤ d1 then some (d1, c2 :: rest2) else none
    | none =>
      if c1 = ' ' then
        match rest1 with
        | c2 :: rest2 =>
          match digitVal c2 with
          | some d2 => if 1 ≤ d2 then some (d2, rest2) else none
          | none => none
        | [] => none
      else none

/-- Match the strptime four-digit-year pattern. -/
def matchYear (input : List Char) : Option (Nat × List Char) :=
  match input with
  | a :: b :: c :: d :: rest =>
    match digitVal a, digitVal b, digitVal c, digitVal d with
    | some x, some y, some z, some w => some (1000 * x + 100 * y + 10 * z + w, rest)
    | _, _, _, _ => none
  | _ => none

/-- The calendar fields strptime accumulates while matching; unset
fields keep the library defaults (year 1900, month 1, day 1). -/
structure ParsedFields where
  year : Nat
  month : Nat
  day : Nat
  deriving DecidableEq, Repr

/-- Interpreter for the strptime format directives this program uses:
abbreviated month, full month, day, four-digit year, literal
characters, and whitespace runs that match one or more whitespace
characters of input; the whole input must be consumed. -/
def runFmt : List Char → List Char → ParsedFields → Option ParsedFields
  | [], [], st => some st
  | [], _ :: _, _ => none
  | '%' :: 'b' :: fmt, input, st =>
    match matchMonth monthAbbrNames input with
    | some (m, rest) => runFmt fmt rest { st with month := m }
    | none => none
  | '%' :: 'B' :: fmt, input, st =>
    match matchMonth monthFullNames input with
    | some (m, rest) => runFmt fmt rest { st with month := m }
    | none => none
  | '%' :: 'd' :: fmt, input, st =>
    match matchDay input with
    | some (d, rest) => runFmt fmt rest { st with day := d }
    | none => none
  | '%' :: 'Y' :: fmt, input, st =>
    match matchYear input with
    | some (y, rest) => runFmt fmt rest { st with year := y }
    | none => none
  | '%' :: _ :: _, _, _ => none
  | c :: fmt, input, st =>
    if c.isWhitespace then
      match input with
      | i :: irest =>
        if i.isWhitespace then runFmt fmt (irest.dropWhile Char.isWhitespace) st
        else none
      | [] => none
    else
      match input with
      | i :: irest => if i = c then runFmt fmt irest st else none
      | [] => none

/-- Shallow model of datetime.strptime restricted to the directives
appearing in the formats of parse_date; a failed match is the absent
value where the library raises ValueError. -/
def strptime (date_string fmt : String) : Option DateTime :=
  (runFmt fmt.toList date_string.toList ⟨1900, 1, 1⟩).map fun st =>
    ⟨st.year, st.month, st.day, 0, 0, 0⟩

/-- Day of the week (Sunday = 0) by the Sakamoto congruence. -/
def dayOfWeek (y m d : Nat) : Nat :=
  let t := [0, 3, 2, 5, 0, 3, 5, 1, 4, 6, 2, 4]
  let y2 := if m < 3 then y - 1 else y
  (y2 + y2 / 4 - y2 / 100 + y2 / 400 + t.getD (m - 1) 0 + d) % 7

/-- Two-digit zero-padded decimal rendering. -/
def pad2 (n : Nat) : String :=
  if n < 10 then "0" ++ toString n else toString n

/-- Model of strftime with the one fixed output format csv_to_rss uses:
abbreviated weekday and month, zero-padded day, year, time and a
literal +0000 zone. -/
def fmtRfc2822 (t : DateTime) : String :=
  weekdayAbbrNames.getD (dayOfWeek t.year t.month t.day) "Sun" ++ ", " ++
    pad2 t.day ++ " " ++ monthAbbrNames.getD (t.month - 1) "Jan" ++ " " ++
    toString t.year ++ " " ++ pad2 t.hour ++ ":" ++ pad2 t.minute ++ ":" ++
    pad2 t.second ++ " +0000"

/-- The prioritized date formats tried by parse_date, verbatim from the
source. -/
def dateFormats : List String :=
  ["%b. %d, %Y", "%B %d, %Y", "%b %d, %Y"]

/-- Model of parse_date from csv_to_rss.py: empty or Unknown input, and
input matched by no format, fall back to the current wall clock, which
is passed explicitly as the value datetime.now would return. -/
def parse_date (now : DateTime) (date_str : String) : String :=
  if date_str = "" ∨ date_str = "Unknown" then fmtRfc2822 now
  else
    match dateFormats.findSome? (fun fmt => strptime date_str fmt) with
    | some parsed => fmtRfc2822 parsed
    | none => fmtRfc2822 now

/-! ### Feed item model (csv_to_rss.py) -/

/-- One CSV row as csv.DictReader hands it to the assembler: each
field is absent when the key is missing from the row dictionary. -/
structure Row where
  title : Option String
  date : Option String
  audio_url : Option String
  page_url : Option String
  description : Option String
  deriving DecidableEq, Repr

/-- Model of the Python strip call with the character set of space,
double quote and greater-than, removing those characters from both
ends of the string. -/
def pyStrip (s : String) : String :=
  let cs : List Char := [' ', '"', '>']
  let l := s.toList.dropWhile (cs.contains ·)
  String.mk ((l.reverse.dropWhile (cs.contains ·)).reverse)

/-- The enclosure element of a feed item: url, MIME type and length
attributes. -/
structure Enclosure where
  url : String
  mime : String
  length : String
  deriving DecidableEq, Repr

/-- The guid element of a feed item: its text and the isPermaLink
attribute value. -/
structure Guid where
  text : String
  isPermaLink : String
  deriving DecidableEq, Repr

/-- One item element of the output document; the fields the source
emits only conditionally are optional. -/
structure RssItem where
  title : String
  description : String
  link : Option String
  enclosure : Option Enclosure
  guid : Option Guid
  pubDate : String
  explicitFlag : String
  duration : String
  deriving DecidableEq, Repr

/-- Assembly of one item from one row, following the per-item body of
the loop in csv_to_rss: title and audio_url are stripped of stray
quoting characters, description defaults to the title, and link,
enclosure and guid are emitted only when the stripped audio_url is
non-empty. -/
def mkItem (now : DateTime) (idx : Nat) (episode : Row) : RssItem :=
  let title := pyStrip (episode.title.getD ("Episode " ++ toString idx))
  let description := episode.description.getD title
  let audio_url := pyStrip (episode.audio_url.getD "")
  { title := title
    description := if description = "" then title else description
    link := if audio_url = "" then none
            else some (pyStrip (episode.page_url.getD audio_url))
    enclosure := if audio_url = "" then none
                 else some ⟨audio_url, "audio/mpeg", "0"⟩
    guid := if audio_url = "" then none
            else some ⟨audio_url, "false"⟩
    pubDate := parse_date now (episode.date.getD "Unknown")
    explicitFlag := "yes"
    duration := "0" }

/-- The item list csv_to_rss appends to the channel: the record list
is reversed once and the reversed list is enumerated from 1. -/
def csvToRssItems (now : DateTime) (episodes : List Row) : List RssItem :=
  episodes.reverse.enum.map fun p => mkItem now (p.1 + 1) p.2

/-! ### Parse-tree model (scraper.py) -/

/-- One element of a parsed page as the parsing library presents it to
the extraction code: tag name, attributes, and the stripped text of
the element. -/
structure Element where
  name : String
  attrs : List (String × String)
  text : String
  deriving DecidableEq, Repr

/-- Model of tag.get(key): the attribute value when present. -/
def Element.get (e : Element) (k : String) : Option String :=
  e.attrs.lookup k

/-- A parsed episode page: the document-order element sequence that
soup.find searches. -/
structure Soup where
  elems : List Element
  deriving DecidableEq, Repr

/-- Model of soup.find(name): the first element with the given tag
name in document order; the class-spelled selectors of the source are
likewise matched against tag names, as the library does for plain
string arguments of find. -/
def Soup.findName (s : Soup) (n : String) : Option Element :=
  s.elems.find? (fun e => e.name == n)

/-- Model of the audio search of the extractor: the first audio
element carrying a controls attribute. -/
def Soup.findAudio (s : Soup) : Option Element :=
  s.elems.find? (fun e => e.name == "audio" && (e.attrs.lookup "controls").isSome)

/-- Model of the Python startswith test. -/
def pyStartsWith (s pre : String) : Bool :=
  pre.toList.isPrefixOf s.toList

/-- Split the characters of a URL at the first scheme separator,
yielding the scheme characters and the remainder after the separator;
absent when the URL has no scheme separator. -/
def splitScheme : List Char → Option (List Char × List Char)
  | [] => none
  | ':' :: '/' :: '/' :: rest => some ([], rest)
  | c :: rest =>
    match splitScheme rest with
    | some (pre, post) => some (c :: pre, post)
    | none => none

/-- Scheme of an absolute URL, the text before the scheme separator. -/
def schemeOf (u : String) : String :=
  match splitScheme u.toList with
  | some (pre, _) => String.mk pre
  | none => ""

/-- Host of an absolute URL, the text between the scheme separator and
the next slash. -/
def hostOf (u : String) : String :=
  match splitScheme u.toList with
  | some (_, post) => String.mk (post.takeWhile (fun c => c ≠ '/'))
  | none => ""

/-- The origin of a URL in the sense of the spec sentence on the
container heuristic: its scheme and host. -/
def urlOrigin (u : String) : String × String :=
  (schemeOf u, hostOf u)

/-- Scheme and host of a URL rendered back as a URL. -/
def originOf (u : String) : String :=
  schemeOf u ++ "://" ++ hostOf u

/-- Does the reference carry its own http or https scheme. -/
def hasHttpScheme (u : String) : Bool :=
  pyStartsWith u "http://" || pyStartsWith u "https://"

/-- Model of urljoin from urllib for the reference shapes this program
produces: an absolute http or https reference replaces the base, a
scheme-relative reference takes the scheme of the base, a
root-relative reference attaches to the origin of the base, an empty
reference keeps the base, and any other reference replaces the last
path segment of the base. Dot segments and query splitting of the
library are outside the shapes exercised here. -/
def urljoin (base url : String) : String :=
  if url = "" then base
  else if hasHttpScheme url then url
  else if pyStartsWith url "//" then schemeOf base ++ ":" ++ url
  else if pyStartsWith url "/" then originOf base ++ url
  else
    let pathChars := base.toList.drop (originOf base).toList.length
    let keep := (pathChars.reverse.dropWhile (fun c => c ≠ '/')).reverse
    originOf base ++ (if keep = [] then "/" else String.mk keep) ++ url

/-- The page record the extractor produces. -/
structure Episode where
  audio_url : String
  title : String
  date : String
  page_url : String
  deriving DecidableEq, Repr

/-- The title variable after the title selector loop of the extractor:
the text of the first selector whose find returns an element, absent
when none does. -/
def titleScan (soup : Soup) : Option String :=
  match soup.findName "h1" with
  | some tag => some tag.text
  | none =>
    match soup.findName "title" with
    | some tag => some tag.text
    | none =>
      match soup.findName ".episode-title" with
      | some tag => some tag.text
      | none => none

/-- The date variable after the date selector loop of the extractor:
for the first selector whose find returns an element, the element text
or, when that is empty, its datetime attribute. -/
def dateScan (soup : Soup) : Option String :=
  match soup.findName ".episode-date" with
  | some tag => if tag.text = "" then tag.get "datetime" else some tag.text
  | none =>
    match soup.findName "time" with
    | some tag => if tag.text = "" then tag.get "datetime" else some tag.text
    | none =>
      match soup.findName ".date" with
      | some tag => if tag.text = "" then tag.get "datetime" else some tag.text
      | none => none

/-- Python falsy-or with the Unknown sentinel: absent or empty becomes
Unknown. -/
def orUnknown : Option String → String
  | some s => if s = "" then "Unknown" else s
  | none => "Unknown"

/-- Model of extract_audio_urls from scraper.py: requires an audio
element with a controls attribute and a non-empty src, resolves the
src against the page URL, and fills title and date from the selector
loops with the Unknown sentinel fallback. -/
def extract_audio_urls (soup : Soup) (page_url : String) : Option Episode :=
  match Soup.findAudio soup with
  | none => none
  | some audio_tag =>
    match audio_tag.get "src" with
    | none => none
    | some src =>
      if src = "" then none
      else
        some { audio_url := urljoin page_url src
               title := orUnknown (titleScan soup)
               date := orUnknown (dateScan soup)
               page_url := page_url }

/-- The index page as the parser presents it to get_episode_links: the
artTable rows when the table exists (per cell, the href of its first
link when one has an href), the links tagged with the episode class
(each with its optional href attribute), and the hrefs of the links
inside the content container when a container exists. -/
structure IndexDoc where
  artTable : Option (List (List (Option String)))
  episodeTagged : List (Option String)
  container : Option (List String)
  deriving DecidableEq, Repr

/-- Option 1 of get_episode_links: for every artTable row after the
header row, the second-cell link target when the row has at least two
cells and that cell contains a link. -/
def tableLinks (doc : IndexDoc) (base_url : String) : List String :=
  match doc.artTable with
  | some rows =>
    (rows.drop 1).filterMap fun cells =>
      if 2 ≤ cells.length then (cells.getD 1 none).map (urljoin base_url)
      else none
  | none => []

/-- Option 2 of get_episode_links: the resolved href of every link
tagged with the episode class, skipping absent and empty hrefs. -/
def episodeClassLinks (doc : IndexDoc) (base_url : String) : List String :=
  doc.episodeTagged.filterMap fun h =>
    match h with
    | some href => if href = "" then none else some (urljoin base_url href)
    | none => none

/-- The per-href step of option 3 of get_episode_links: an href that
starts with a hash mark or with http, and does not start with the raw
base_url text, is dropped; every kept href is resolved against
base_url. -/
def containerStep (base_url href : String) : Option String :=
  if (pyStartsWith href "#" || pyStartsWith href "http") && !pyStartsWith href base_url then
    none
  else some (urljoin base_url href)

/-- Option 3 of get_episode_links: every link of the content
container, filtered by containerStep. -/
def containerLinks (doc : IndexDoc) (base_url : String) : List String :=
  match doc.container with
  | some hrefs => hrefs.filterMap (containerStep base_url)
  | none => []

/-- Model of get_episode_links from scraper.py: the three structural
heuristics in order, the first with a non-empty result winning. -/
def get_episode_links (doc : IndexDoc) (base_url : String) : List String :=
  let links1 := tableLinks doc base_url
  let links2 := if links1 = [] then episodeClassLinks doc base_url else links1
  if links2 = [] then containerLinks doc base_url else links2

/-! ### Crawl coordinator model (scraper.py) -/

/-- Result of one transport fetch: the response text on success, or
the message of the raised request exception (a transport error or a
non-2xx status raised by raise_for_status). -/
inductive FetchResult where
  | ok (body : String)
  | err (msg : String)
  deriving DecidableEq, Repr

/-- The transport collaborator: one fetch result per URL,
deterministic for the span of one crawl. -/
abbrev Fetcher := String → FetchResult

/-- The page-level stage the loop applies to a successful fetch:
parsing composed with extract_audio_urls, abstracted over the parser
capability (body and page URL in, optional record out). -/
abbrev PageExtractor := String → String → Option Episode

/-- The state of the crawl loop: the visited set, the trace of URLs
actually handed to the transport, and the accumulated records. -/
structure CrawlAcc where
  visited : List String
  fetched : List String
  episodes : List Episode
  deriving DecidableEq, Repr

/-- The per-link loop of crawl_episodes: a link in the visited set is
skipped, otherwise it is added to the visited set and then fetched
(recorded in the fetch trace); a fetch error skips the page, and a
successful extraction appends its record. -/
def crawlLoop (fetch : Fetcher) (extractPage : PageExtractor) :
    List String → CrawlAcc → CrawlAcc
  | [], acc => acc
  | url :: rest, acc =>
    if url ∈ acc.visited then
      crawlLoop fetch extractPage rest acc
    else
      let acc1 : CrawlAcc :=
        { acc with visited := url :: acc.visited, fetched := acc.fetched ++ [url] }
      match fetch url with
      | .err _ => crawlLoop fetch extractPage rest acc1
      | .ok body =>
        match extractPage body url with
        | some ep =>
          crawlLoop fetch extractPage rest { acc1 with episodes := acc1.episodes ++ [ep] }
        | none => crawlLoop fetch extractPage rest acc1

/-- Model of crawl_episodes from scraper.py: the index fetch, link
discovery on the index body, and the per-link loop starting from the
default empty visited set; on an index fetch failure the function
returns the empty record list it has accumulated so far. The link
discoverer parameter is the parser capability composed with
get_episode_links. -/
def crawl_episodes (fetch : Fetcher) (discover : String → List String)
    (extractPage : PageExtractor) (start_url : String) : List Episode :=
  match fetch start_url with
  | .err _ => []
  | .ok body =>
    (crawlLoop fetch extractPage (discover body) ⟨[], [], []⟩).episodes

/-- The sequence of URLs the loop hands to the transport: first
occurrences of links not in the visited set, in discovery order. -/
def fetchSeq : List String → List String → List String
  | [], _ => []
  | url :: rest, visited =>
    if url ∈ visited then fetchSeq rest visited
    else url :: fetchSeq rest (url :: visited)

/-- The record one fetched page contributes: absent on fetch failure
and when extraction finds no audio. -/
def pageRecord (fetch : Fetcher) (extractPage : PageExtractor) (url : String) :
    Option Episode :=
  match fetch url with
  | .err _ => none
  | .ok body => extractPage body url

/-! ### Concrete fixtures for witnesses and counterexamples -/

/-- A fixed wall clock value used by concrete instantiations. -/
def now0 : DateTime := ⟨2020, 1, 2, 3, 4, 5⟩

/-- A row with every field present and a clean audio URL. -/
def rowGood : Row :=
  { title := some "The Old Testament", date := some "Nov. 22, 2016",
    audio_url := some "http://a.mp3", page_url := some "http://p",
    description := none }

/-- A second row, dated Unknown. -/
def rowNext : Row :=
  { title := some "Episode Two", date := some "Unknown",
    audio_url := some "http://b.mp3", page_url := some "http://q",
    description := none }

/-- A row whose audio_url field is non-empty but consists of one
double-quote character, which the strip call removes entirely. -/
def rowQuote : Row :=
  { title := some "Ep", date := some "Unknown", audio_url := some "\"",
    page_url := some "http://p", description := none }

/-- An audio element with a controls attribute and a relative src. -/
def audioElem : Element :=
  { name := "audio", attrs := [("controls", ""), ("src", "ep.mp3")], text := "" }

/-- A page whose first title selector hit is an empty h1 while the
document title element carries non-empty text. -/
def soupEmptyH1 : Soup :=
  { elems := [audioElem,
              { name := "h1", attrs := [], text := "" },
              { name := "title", attrs := [], text := "Real Title" }] }

/-- A page without any audio element. -/
def soupPlain : Soup :=
  { elems := [{ name := "p", attrs := [], text := "hello" },
              { name := "h1", attrs := [], text := "A Page" }] }

/-- A page whose audio element has a controls attribute but no src
attribute. -/
def soupNoSrc : Soup :=
  { elems := [{ name := "audio", attrs := [("controls", "")], text := "" }] }

/-- Index page for the container fallback with one link whose target
extends the base URL text but lives on a different host. -/
def docEvil : IndexDoc :=
  { artTable := none, episodeTagged := [],
    container := some ["https://msspoldt.com.evil.org/x"] }

/-- A transport oracle that succeeds on every URL. -/
def fetchAllOk : Fetcher := fun _ => .ok "body"

/-- A transport oracle that fails on every URL. -/
def fetchFail : Fetcher := fun _ => .err "connection error"

/-- A transport oracle that fails on the URL named bad and succeeds
elsewhere. -/
def fetchBad : Fetcher := fun u => if u = "bad" then .err "timeout" else .ok "body"

/-- A page extractor that finds no audio anywhere. -/
def extractNone : PageExtractor := fun _ _ => none

/-- A page extractor that produces a record for every page. -/
def extractAlways : PageExtractor := fun _ u => some ⟨u ++ ".mp3", "t", "d", u⟩

/-- A link discoverer that finds no links. -/
def discoverNone : String → List String := fun _ => []

/-! ### Theorems -/

/-- C2: parse_date maps the three sample strings to one and the same
result, independently of the wall clock, and that result is the
rendering of the calendar date with day 22, month 11, year 2016;
moreover the format scan itself parses each of the three strings to
that date. -/
theorem c2_date_normalization (now : DateTime) :
    parse_date now "Nov. 22, 2016" = parse_date now "November 22, 2016" ∧
    parse_date now "November 22, 2016" = parse_date now "Nov 22, 2016" ∧
    (dateFormats.findSome? fun fmt => strptime "Nov. 22, 2016" fmt) =
      some ⟨2016, 11, 22, 0, 0, 0⟩ ∧
    (dateFormats.findSome? fun fmt => strptime "November 22, 2016" fmt) =
      some ⟨2016, 11, 22, 0, 0, 0⟩ ∧
    (dateFormats.findSome? fun fmt => strptime "Nov 22, 2016" fmt) =
      some ⟨2016, 11, 22, 0, 0, 0⟩ ∧
    parse_date now "Nov. 22, 2016" = fmtRfc2822 ⟨2016, 11, 22, 0, 0, 0⟩ :=
  ⟨rfl, rfl, rfl, rfl, rfl, rfl⟩

/-- C9: a page without any audio element yields the absent value (and
the extractor, being a total function, cannot throw). -/
theorem c9_no_audio_absent (soup : Soup) (page_url : String)
    (h : ∀ e ∈ soup.elems, e.name ≠ "audio") :
    extract_audio_urls soup page_url = none := by
  have hfind : Soup.findAudio soup = none := by
    apply List.find?_eq_none.mpr
    intro e he
    simp only [Bool.and_eq_true, beq_iff_eq, not_and]
    intro hname
    exact absurd hname (h e he)
  simp [extract_audio_urls, hfind]

/-- Witness for C9 at a concrete audio-free page. -/
theorem c9_no_audio_absent_witness :
    extract_audio_urls soupPlain "https://msspoldt.com/ep1" = none :=
  c9_no_audio_absent soupPlain "https://msspoldt.com/ep1" (by decide)

/-- C10: when the audio search does find an element but that element
has no src attribute, or an empty one, the extractor returns the
absent value rather than a record with a missing audio URL. -/
theorem c10_audio_without_src_absent (soup : Soup) (page_url : String) (e : Element)
    (hfind : Soup.findAudio soup = some e)
    (hsrc : e.get "src" = none ∨ e.get "src" = some "") :
    extract_audio_urls soup page_url = none := by
  rcases hsrc with h2 | h2 <;> simp [extract_audio_urls, hfind, h2]

/-- Witness for C10 at a concrete page whose audio element lacks a
src attribute. -/
theorem c10_audio_without_src_absent_witness :
    extract_audio_urls soupNoSrc "https://msspoldt.com/ep1" = none :=
  c10_audio_without_src_absent soupNoSrc "https://msspoldt.com/ep1"
    ⟨"audio", [("controls", "")], ""⟩ rfl (Or.inl rfl)

/-- C4 counterexample: a record whose audio_url field is the non-empty
string made of one double-quote character produces an item with no
link, no enclosure and no guid, because the assembler strips quoting
characters before testing emptiness — refuting the claimed equivalence
with non-emptiness of the field itself. -/
theorem c4_counterexample :
    rowQuote.audio_url = some "\"" ∧ ("\"" : String) ≠ "" ∧
    (mkItem now0 1 rowQuote).link = none ∧
    (mkItem now0 1 rowQuote).enclosure = none ∧
    (mkItem now0 1 rowQuote).guid = none :=
  ⟨rfl, by decide, rfl, rfl, rfl⟩

/-- C4 amended: an item carries link, enclosure and guid precisely
when the audio_url field stripped of stray space, double-quote and
greater-than characters is non-empty; the guid text is that stripped
value (with the isPermaLink marker false) and the enclosure carries it
with the fixed MIME type and zero length; the publish date is emitted
in every item. -/
theorem c4_enclosure_guid_iff_stripped_audio (now : DateTime) (idx : Nat) (episode : Row) :
    (pyStrip (episode.audio_url.getD "") ≠ "" →
      (mkItem now idx episode).link =
        some (pyStrip (episode.page_url.getD (pyStrip (episode.audio_url.getD "")))) ∧
      (mkItem now idx episode).enclosure =
        some ⟨pyStrip (episode.audio_url.getD ""), "audio/mpeg", "0"⟩ ∧
      (mkItem now idx episode).guid =
        some ⟨pyStrip (episode.audio_url.getD ""), "false"⟩) ∧
    (pyStrip (episode.audio_url.getD "") = "" →
      (mkItem now idx episode).link = none ∧
      (mkItem now idx episode).enclosure = none ∧
      (mkItem now idx episode).guid = none) ∧
    (mkItem now idx episode).pubDate = parse_date now (episode.date.getD "Unknown") := by
  by_cases ha : pyStrip (episode.audio_url.getD "") = "" <;>
    simp [mkItem, ha]

/-- Witness for the amended C4 at a record with a clean audio URL and
at a record whose stripped audio URL is empty. -/
theorem c4_enclosure_guid_iff_stripped_audio_witness :
    ((mkItem now0 1 rowGood).guid = some ⟨"http://a.mp3", "false"⟩ ∧
      (mkItem now0 1 rowGood).enclosure = some ⟨"http://a.mp3", "audio/mpeg", "0"⟩) ∧
    (mkItem now0 1 rowQuote).guid = none :=
  ⟨⟨((c4_enclosure_guid_iff_stripped_audio now0 1 rowGood).1 (by decide)).2.2,
    ((c4_enclosure_guid_iff_stripped_audio now0 1 rowGood).1 (by decide)).2.1⟩,
   ((c4_enclosure_guid_iff_stripped_audio now0 1 rowQuote).2.1 (by decide)).2.2⟩

/-- C6 counterexample: on a page whose h1 element exists with empty
text while the document title element carries the non-empty text Real
Title, the extractor returns the Unknown sentinel — refuting the claim
that the first location with non-empty text is taken and that Unknown
appears exactly when no location yields non-empty text. -/
theorem c6_counterexample :
    (extract_audio_urls soupEmptyH1 "https://msspoldt.com/ep1").map Episode.title =
      some "Unknown" ∧
    (Soup.findName soupEmptyH1 "title").map Element.text = some "Real Title" ∧
    ("Real Title" : String) ≠ "" :=
  ⟨rfl, rfl, by decide⟩

/-- C6 amended: the title selector loop stops at the first structural
location where an element exists, regardless of its text; the emitted
title is that element text when non-empty and the Unknown sentinel
when the first found element has empty text or no location has an
element. -/
theorem c6_title_first_found (soup : Soup) (page_url : String) (rec : Episode)
    (h : extract_audio_urls soup page_url = some rec) :
    rec.title = orUnknown (titleScan soup) ∧
    titleScan soup =
      ((soup.findName "h1").map Element.text <|>
        ((soup.findName "title").map Element.text <|>
          (soup.findName ".episode-title").map Element.text)) := by
  constructor
  · cases hA : Soup.findAudio soup with
    | none => simp [extract_audio_urls, hA] at h
    | some tag =>
      cases hs : tag.get "src" with
      | none => simp [extract_audio_urls, hA, hs] at h
      | some src =>
        by_cases hempty : src = ""
        · simp [extract_audio_urls, hA, hs, hempty] at h
        · simp [extract_audio_urls, hA, hs, hempty] at h
          rw [← h]
  · unfold titleScan
    cases soup.findName "h1" <;> cases soup.findName "title" <;>
      cases soup.findName ".episode-title" <;> rfl

/-- Witness for the amended C6 at the concrete page with an empty h1
and a non-empty document title. -/
theorem c6_title_first_found_witness :
    (⟨urljoin "https://msspoldt.com/ep1" "ep.mp3", "Unknown", "Unknown",
        "https://msspoldt.com/ep1"⟩ : Episode).title = orUnknown (titleScan soupEmptyH1) ∧
    titleScan soupEmptyH1 =
      ((soupEmptyH1.findName "h1").map Element.text <|>
        ((soupEmptyH1.findName "title").map Element.text <|>
          (soupEmptyH1.findName ".episode-title").map Element.text)) :=
  c6_title_first_found soupEmptyH1 "https://msspoldt.com/ep1"
    ⟨urljoin "https://msspoldt.com/ep1" "ep.mp3", "Unknown", "Unknown",
      "https://msspoldt.com/ep1"⟩ rfl

/-- C3: the assembler reverses the record list exactly once, so the
output has one item per input record and the item at output position i
is assembled (with 1-based index i + 1) from the input record at
position n - 1 - i, for every input list. -/
theorem c3_items_newest_first (now : DateTime) (rows : List Row) (i : Nat)
    (h : i < rows.length) :
    (csvToRssItems now rows).length = rows.length ∧
    (csvToRssItems now rows)[i]? = (rows[rows.length - 1 - i]?).map (mkItem now (i + 1)) := by
  refine ⟨by simp [csvToRssItems], ?_⟩
  rw [csvToRssItems, List.getElem?_map, List.getElem?_enum, List.getElem?_reverse h]
  cases rows[rows.length - 1 - i]? <;> rfl

/-- Witness for C3 on a two-record list at output position zero. -/
theorem c3_items_newest_first_witness :
    0 < ([rowGood, rowNext] : List Row).length ∧
    ((csvToRssItems now0 [rowGood, rowNext]).length = ([rowGood, rowNext] : List Row).length ∧
      (csvToRssItems now0 [rowGood, rowNext])[0]? =
        (([rowGood, rowNext] : List Row)[([rowGood, rowNext] : List Row).length - 1 - 0]?).map
          (mkItem now0 (0 + 1))) :=
  ⟨by decide, c3_items_newest_first now0 [rowGood, rowNext] 0 (by decide)⟩

/-- C5 counterexample: with the container fallback active, a link
whose target extends the base URL text but lives on the host
msspoldt.com.evil.org is returned even though its origin (scheme and
host) differs from the origin of base_url — refuting the claimed
different-origin exclusion. -/
theorem c5_counterexample :
    get_episode_links docEvil "https://msspoldt.com" =
      ["https://msspoldt.com.evil.org/x"] ∧
    urlOrigin "https://msspoldt.com.evil.org/x" ≠ urlOrigin "https://msspoldt.com" :=
  ⟨rfl, by decide⟩

/-- C5 amended: in the container fallback the exclusion test is a raw
string test — an href is dropped precisely when it starts with a hash
mark or with http while not starting with the base_url text — so bare
same-page anchors are excluded, but same-origin exclusion is only
approximated by that test and a kept href may resolve to a different
origin. -/
theorem c5_container_filter (doc : IndexDoc) (base_url : String)
    (h1 : tableLinks doc base_url = [])
    (h2 : episodeClassLinks doc base_url = []) :
    get_episode_links doc base_url =
      (doc.container.getD []).filterMap (containerStep base_url) ∧
    ∀ href : String,
      containerStep base_url href = none ↔
        ((pyStartsWith href "#" || pyStartsWith href "http") &&
          !pyStartsWith href base_url) = true := by
  constructor
  · have hcl : get_episode_links doc base_url = containerLinks doc base_url := by
      simp [get_episode_links, h1, h2]
    rw [hcl]
    cases hco : doc.container <;> simp [containerLinks, hco]
  · intro href
    by_cases hc : ((pyStartsWith href "#" || pyStartsWith href "http") &&
        !pyStartsWith href base_url) = true <;> simp [containerStep, hc]

/-- Witness for the amended C5 at the concrete index page whose table
and episode-marker heuristics both come up empty. -/
theorem c5_container_filter_witness :
    (get_episode_links docEvil "https://msspoldt.com" =
      (docEvil.container.getD []).filterMap (containerStep "https://msspoldt.com")) ∧
    ∀ href : String,
      containerStep "https://msspoldt.com" href = none ↔
        ((pyStartsWith href "#" || pyStartsWith href "http") &&
          !pyStartsWith href "https://msspoldt.com") = true :=
  c5_container_filter docEvil "https://msspoldt.com" rfl rfl

/-- The fetch trace of the crawl loop is the accumulated trace
followed by the deduplicated link sequence relative to the visited
set. -/
theorem crawlLoop_fetched (fetch : Fetcher) (extractPage : PageExtractor)
    (links : List String) :
    ∀ acc : CrawlAcc,
      (crawlLoop fetch extractPage links acc).fetched =
        acc.fetched ++ fetchSeq links acc.visited := by
  induction links with
  | nil => intro acc; simp [crawlLoop, fetchSeq]
  | cons url rest ih =>
    intro acc
    by_cases hv : url ∈ acc.visited
    · simp [crawlLoop, fetchSeq, hv, ih]
    · simp only [crawlLoop, fetchSeq, hv, if_neg, not_false_iff, if_false]
      cases hf : fetch url with
      | err msg => simp [ih]
      | ok body =>
        cases he : extractPage body url with
        | some ep => simp [ih, he]
        | none => simp [ih, he]

/-- The record list of the crawl loop is the accumulated list followed
by the in-order per-page outcomes of the deduplicated link
sequence. -/
theorem crawlLoop_episodes (fetch : Fetcher) (extractPage : PageExtractor)
    (links : List String) :
    ∀ acc : CrawlAcc,
      (crawlLoop fetch extractPage links acc).episodes =
        acc.episodes ++ (fetchSeq links acc.visited).filterMap (pageRecord fetch extractPage) := by
  induction links with
  | nil => intro acc; simp [crawlLoop, fetchSeq]
  | cons url rest ih =>
    intro acc
    by_cases hv : url ∈ acc.visited
    · simp [crawlLoop, fetchSeq, hv, ih]
    · simp only [crawlLoop, fetchSeq, hv, if_neg, not_false_iff, if_false]
      cases hf : fetch url with
      | err msg => simp [ih, pageRecord, hf]
      | ok body =>
        cases he : extractPage body url with
        | some ep => simp [ih, pageRecord, hf, he]
        | none => simp [ih, pageRecord, hf, he]

/-- The deduplicated link sequence has no duplicates and avoids the
visited set it starts from. -/
theorem fetchSeq_nodup_avoids (links : List String) :
    ∀ visited : List String,
      (fetchSeq links visited).Nodup ∧ ∀ u ∈ visited, u ∉ fetchSeq links visited := by
  induction links with
  | nil => intro visited; simp [fetchSeq]
  | cons url rest ih =>
    intro visited
    by_cases hv : url ∈ visited
    · simpa [fetchSeq, hv] using ih visited
    · have hrec := ih (url :: visited)
      constructor
      · rw [fetchSeq, if_neg hv, List.nodup_cons]
        exact ⟨hrec.2 url (by simp), hrec.1⟩
      · intro u hu
        rw [fetchSeq, if_neg hv, List.mem_cons]
        rintro (rfl | hmem)
        · exact hv hu
        · exact hrec.2 u (by simp [hu]) hmem

/-- C1: within one crawl invocation the loop hands every URL to the
transport at most once — its fetch trace has no duplicates — and a
link already present in the visited set is never fetched. -/
theorem c1_fetch_at_most_once (fetch : Fetcher) (extractPage : PageExtractor)
    (links visited : List String) :
    (crawlLoop fetch extractPage links ⟨visited, [], []⟩).fetched.Nodup ∧
    ∀ u ∈ visited, u ∉ (crawlLoop fetch extractPage links ⟨visited, [], []⟩).fetched := by
  rw [crawlLoop_fetched fetch extractPage links ⟨visited, [], []⟩]
  simpa using fetchSeq_nodup_avoids links visited

/-- Witness for C1 on an index listing a duplicated link and an
already-visited one. -/
theorem c1_fetch_at_most_once_witness :
    (crawlLoop fetchAllOk extractAlways ["a", "a", "b"] ⟨["c"], [], []⟩).fetched.Nodup ∧
    "c" ∉ (crawlLoop fetchAllOk extractAlways ["a", "a", "b"] ⟨["c"], [], []⟩).fetched :=
  ⟨(c1_fetch_at_most_once fetchAllOk extractAlways ["a", "a", "b"] ["c"]).1,
   (c1_fetch_at_most_once fetchAllOk extractAlways ["a", "a", "b"] ["c"]).2 "c" (by decide)⟩

/-- C7: when some discovered page fails to fetch or yields no audio,
the crawl still returns a value (the loop is a total function), the
failing page contributes no record, every other discovered link is
still processed, and the records appear in discovery order: the
result is exactly the in-order filterMap of the per-page outcomes over
the deduplicated link sequence. -/
theorem c7_partial_failure (fetch : Fetcher) (extractPage : PageExtractor)
    (links visited : List String)
    (_h : ∃ u ∈ links, pageRecord fetch extractPage u = none) :
    (crawlLoop fetch extractPage links ⟨visited, [], []⟩).episodes =
      (fetchSeq links visited).filterMap (pageRecord fetch extractPage) := by
  simpa using crawlLoop_episodes fetch extractPage links ⟨visited, [], []⟩

/-- Witness for C7 with a link whose fetch fails followed by one that
succeeds. -/
theorem c7_partial_failure_witness :
    (∃ u ∈ (["bad", "good"] : List String), pageRecord fetchBad extractAlways u = none) ∧
    (crawlLoop fetchBad extractAlways ["bad", "good"] ⟨[], [], []⟩).episodes =
      (fetchSeq ["bad", "good"] []).filterMap (pageRecord fetchBad extractAlways) :=
  ⟨⟨"bad", by simp, rfl⟩,
   c7_partial_failure fetchBad extractAlways ["bad", "good"] [] ⟨"bad", by simp, rfl⟩⟩

/-- C8 counterexample: the value crawl_episodes returns to its caller
after a failed index fetch is the empty list, and it equals the value
returned by a successful run that discovers zero episode links — so
the returned value carries no signal distinguishing the failed run
from a successful run with zero episodes. -/
theorem c8_counterexample :
    crawl_episodes fetchFail discoverNone extractNone "https://msspoldt.com/episodes" = [] ∧
    crawl_episodes fetchAllOk discoverNone extractNone "https://msspoldt.com/episodes" = [] ∧
    crawl_episodes fetchFail discoverNone extractNone "https://msspoldt.com/episodes" =
      crawl_episodes fetchAllOk discoverNone extractNone "https://msspoldt.com/episodes" :=
  ⟨rfl, rfl, rfl⟩

/-- C8 amended: when the initial index fetch fails, crawl_episodes
returns zero records; the failure is reported only on the console, and
the value returned to the caller is the same empty list a successful
run with zero discovered episodes returns. -/
theorem c8_index_failure_empty (fetch : Fetcher) (discover : String → List String)
    (extractPage : PageExtractor) (start_url msg : String)
    (h : fetch start_url = .err msg) :
    crawl_episodes fetch discover extractPage start_url = [] := by
  simp [crawl_episodes, h]

/-- Witness for the amended C8 at a concrete failing transport. -/
theorem c8_index_failure_empty_witness :
    fetchFail "https://msspoldt.com/episodes" = .err "connection error" ∧
    crawl_episodes fetchFail discoverNone extractNone "https://msspoldt.com/episodes" = [] :=
  ⟨rfl, c8_index_failure_empty fetchFail discoverNone extractNone
    "https://msspoldt.com/episodes" "connection error" rfl⟩
